import Mathlib

/-!
Shallow embedding of `exercises/laser_loc/laser_loc.py` (RoboticsAcademy).

The file under analysis is glue code: translations between ROS message
types (`LaserScan`, `Odometry`, `Twist`) and JdeRobot plain data types
(`LaserData`, `Pose3d`, `CMDVel`), quaternion-to-Euler conversions, and
two publisher/subscriber classes holding a single most-recent value.

Python floats are modelled as real numbers; the mutable `self.data` slot
of each publisher/subscriber class is modelled by explicit state passing
(the state is the stored value), and a sequence of calls is a `List.foldl`
over the state.
-/

open Real

/-- ROS time stamp (`header.stamp`): integer seconds and nanoseconds. -/
structure Stamp where
  secs : ℤ
  nsecs : ℤ

/-- ROS message header, as used by `laser_loc.py` (only the stamp is read). -/
structure Header where
  stamp : Stamp

/-- ROS `sensor_msgs/LaserScan`, restricted to the fields `laserScan2LaserData` reads. -/
structure LaserScan where
  header : Header
  ranges : List ℝ
  angle_min : ℝ
  angle_max : ℝ
  range_min : ℝ
  range_max : ℝ

/-- JdeRobot `LaserData` (from `jderobotTypes`), the fields `laser_loc.py` assigns. -/
structure LaserData where
  values : List ℝ
  minAngle : ℝ
  maxAngle : ℝ
  minRange : ℝ
  maxRange : ℝ
  timeStamp : ℝ

/-- Modelled from the spec: the external `jderobotTypes` library's `LaserData()`
default constructor (zero-initialised fields, empty measurement list); the
library itself is not part of this repository's sources. -/
def LaserData.default : LaserData :=
  { values := [], minAngle := 0, maxAngle := 0, minRange := 0, maxRange := 0, timeStamp := 0 }

/-- JdeRobot `CMDVel` (from `jderobotTypes`): linear (`vx`,`vy`,`vz`) and
angular (`ax`,`ay`,`az`) velocity components. -/
structure CMDVel where
  vx : ℝ
  vy : ℝ
  vz : ℝ
  ax : ℝ
  ay : ℝ
  az : ℝ

/-- Modelled from the spec: the external `jderobotTypes` library's `CMDVel()`
default constructor (all velocity components zero). -/
def CMDVel.default : CMDVel :=
  { vx := 0, vy := 0, vz := 0, ax := 0, ay := 0, az := 0 }

/-- A 3-vector as used by ROS `geometry_msgs/Vector3`. -/
structure Vector3Msg where
  x : ℝ
  y : ℝ
  z : ℝ

/-- ROS `geometry_msgs/Twist`: linear and angular velocity. -/
structure Twist where
  linear : Vector3Msg
  angular : Vector3Msg

/-- ROS quaternion (`geometry_msgs/Quaternion`). -/
structure QuaternionMsg where
  x : ℝ
  y : ℝ
  z : ℝ
  w : ℝ

/-- ROS position (`geometry_msgs/Point`). -/
structure Point where
  x : ℝ
  y : ℝ
  z : ℝ

/-- ROS pose: position and orientation, as read by `odometry2Pose3D`
(`odom.pose.pose.position`, `odom.pose.pose.orientation`). -/
structure PoseMsg where
  position : Point
  orientation : QuaternionMsg

/-- ROS `geometry_msgs/PoseWithCovariance`, restricted to the pose. -/
structure PoseWithCovariance where
  pose : PoseMsg

/-- ROS `nav_msgs/Odometry`, restricted to the fields `odometry2Pose3D` reads. -/
structure Odometry where
  header : Header
  pose : PoseWithCovariance

/-- JdeRobot `Pose3d` (from `jderobotTypes`), the fields `laser_loc.py` assigns:
position, Euler angles, quaternion as a list, and time stamp. -/
structure Pose3d where
  x : ℝ
  y : ℝ
  z : ℝ
  yaw : ℝ
  pitch : ℝ
  roll : ℝ
  q : List ℝ
  timeStamp : ℝ

/-- Modelled from the spec: the external `jderobotTypes` library's `Pose3d()`
default constructor (zero position and angles, empty quaternion list). -/
def Pose3d.default : Pose3d :=
  { x := 0, y := 0, z := 0, yaw := 0, pitch := 0, roll := 0, q := [], timeStamp := 0 }

/-- Modelled from the spec: the C/Python library function `math.atan2` on real
numbers (two-argument arctangent, standard quadrant-correct definition;
`atan2 0 0 = 0`). -/
noncomputable def atan2 (y x : ℝ) : ℝ :=
  if 0 < x then arctan (y / x)
  else if x < 0 ∧ 0 ≤ y then arctan (y / x) + π
  else if x < 0 ∧ y < 0 then arctan (y / x) - π
  else if x = 0 ∧ 0 < y then π / 2
  else if x = 0 ∧ y < 0 then -(π / 2)
  else 0

/-- Embedding of `laserScan2LaserData` (laser_loc.py, lines 23-50): translates a
ROS `LaserScan` into a JdeRobot `LaserData`, shifting the angle frame by +pi/2. -/
noncomputable def laserScan2LaserData (scan : LaserScan) : LaserData :=
  { values := scan.ranges
    minAngle := scan.angle_min + π / 2
    maxAngle := scan.angle_max + π / 2
    maxRange := scan.range_max
    minRange := scan.range_min
    timeStamp := (scan.header.stamp.secs : ℝ) + (scan.header.stamp.nsecs : ℝ) * 1e-9 }

/-- Embedding of `cmdvel2Twist` (laser_loc.py, lines 114-133): field-for-field
copy of a `CMDVel` into a ROS `Twist`. -/
def cmdvel2Twist (vel : CMDVel) : Twist :=
  { linear := { x := vel.vx, y := vel.vy, z := vel.vz }
    angular := { x := vel.ax, y := vel.ay, z := vel.az } }

/-- Embedding of `quat2Yaw` (laser_loc.py, lines 281-297). The Python code
initialises `rotateZ = 0.0` and only assigns `atan2` when both arguments are
nonzero. -/
noncomputable def quat2Yaw (qw qx qy qz : ℝ) : ℝ :=
  let rotateZa0 : ℝ := 2 * (qx * qy + qw * qz)
  let rotateZa1 : ℝ := qw * qw + qx * qx - qy * qy - qz * qz
  if rotateZa0 ≠ 0 ∧ rotateZa1 ≠ 0 then atan2 rotateZa0 rotateZa1 else 0

/-- Embedding of `quat2Pitch` (laser_loc.py, lines 299-320): clamps the `asin`
argument, returning plus or minus pi/2 at or beyond the ±1 boundaries. -/
noncomputable def quat2Pitch (qw qx qy qz : ℝ) : ℝ :=
  let rotateYa0 : ℝ := -2 * (qx * qz - qw * qy)
  if rotateYa0 ≥ 1 then π / 2
  else if rotateYa0 ≤ -1 then -(π / 2)
  else arcsin rotateYa0

/-- Embedding of `quat2Roll` (laser_loc.py, lines 322-339). As with `quat2Yaw`,
`atan2` is only invoked when both arguments are nonzero. -/
noncomputable def quat2Roll (qw qx qy qz : ℝ) : ℝ :=
  let rotateXa0 : ℝ := 2 * (qy * qz + qw * qx)
  let rotateXa1 : ℝ := qw * qw - qx * qx - qy * qy + qz * qz
  if rotateXa0 ≠ 0 ∧ rotateXa1 ≠ 0 then atan2 rotateXa0 rotateXa1 else 0

/-- Embedding of `odometry2Pose3D` (laser_loc.py, lines 342-366): builds a
`Pose3d` from a ROS `Odometry` message. -/
noncomputable def odometry2Pose3D (odom : Odometry) : Pose3d :=
  let ori := odom.pose.pose.orientation
  { x := odom.pose.pose.position.x
    y := odom.pose.pose.position.y
    z := odom.pose.pose.position.z
    yaw := quat2Yaw ori.w ori.x ori.y ori.z
    pitch := quat2Pitch ori.w ori.x ori.y ori.z
    roll := quat2Roll ori.w ori.x ori.y ori.z
    q := [ori.w, ori.x, ori.y, ori.z]
    timeStamp := (odom.header.stamp.secs : ℝ) + (odom.header.stamp.nsecs : ℝ) * 1e-9 }

/-- State of a `PublisherMotors` instance: the single cached `CMDVel` slot
(`self.data`). Lock acquire/release brackets in the source protect a plain
read or write of this slot and are absorbed by the state-passing model. -/
abbrev PublisherMotors.State := CMDVel

/-- `PublisherMotors.sendVelocities` (lines 196-207): overwrites the cached
`CMDVel` with the argument. -/
def PublisherMotors.sendVelocities (_s : PublisherMotors.State) (vel : CMDVel) :
    PublisherMotors.State :=
  vel

/-- `PublisherMotors.sendVX` (lines 242-253): `self.data.vx = vx`. -/
def PublisherMotors.sendVX (s : PublisherMotors.State) (vx : ℝ) : PublisherMotors.State :=
  { s with vx := vx }

/-- `PublisherMotors.sendVY` (lines 255-266): `self.data.vy = vy`. -/
def PublisherMotors.sendVY (s : PublisherMotors.State) (vy : ℝ) : PublisherMotors.State :=
  { s with vy := vy }

/-- `PublisherMotors.sendAZ` (lines 268-279). The Python body assigns
`self.data.vz = az` (the linear z slot), not `self.data.az`. -/
def PublisherMotors.sendAZ (s : PublisherMotors.State) (az : ℝ) : PublisherMotors.State :=
  { s with vz := az }

/-- `PublisherMotors.sendV` (lines 209-218): delegates to `sendVX`. -/
def PublisherMotors.sendV (s : PublisherMotors.State) (v : ℝ) : PublisherMotors.State :=
  PublisherMotors.sendVX s v

/-- `PublisherMotors.sendL` (lines 220-229): delegates to `sendVY`. -/
def PublisherMotors.sendL (s : PublisherMotors.State) (l : ℝ) : PublisherMotors.State :=
  PublisherMotors.sendVY s l

/-- `PublisherMotors.sendW` (lines 231-240): delegates to `sendAZ`. -/
def PublisherMotors.sendW (s : PublisherMotors.State) (w : ℝ) : PublisherMotors.State :=
  PublisherMotors.sendAZ s w

/-- `PublisherMotors.publish` (lines 162-169): the `Twist` handed to
`self.pub.publish` is `cmdvel2Twist` of the cached `CMDVel`. -/
def PublisherMotors.publish (s : PublisherMotors.State) : Twist :=
  cmdvel2Twist s

/-- `PublisherMotors.__init__` (lines 139-160) initialises the cached slot to
`CMDVel()`. -/
def PublisherMotors.initState : PublisherMotors.State :=
  CMDVel.default

/-- State after a sequence of `sendVelocities` calls, applied left to right. -/
def PublisherMotors.runSendVelocities (init : PublisherMotors.State) (vs : List CMDVel) :
    PublisherMotors.State :=
  vs.foldl PublisherMotors.sendVelocities init

/-- State of a `ListenerLaser` instance: the single cached `LaserData` slot. -/
abbrev ListenerLaser.State := LaserData

/-- `ListenerLaser.__init__` (lines 57-70): `self.data = LaserData()`. -/
def ListenerLaser.initState : ListenerLaser.State :=
  LaserData.default

/-- `ListenerLaser.__callback` (lines 72-85): stores
`laserScan2LaserData scan`, overwriting the previous value. -/
noncomputable def ListenerLaser.callback (_s : ListenerLaser.State) (scan : LaserScan) :
    ListenerLaser.State :=
  laserScan2LaserData scan

/-- `ListenerLaser.getLaserData` (lines 101-112): returns the cached value. -/
def ListenerLaser.getLaserData (s : ListenerLaser.State) : LaserData :=
  s

/-- State after a sequence of received `LaserScan` messages. -/
noncomputable def ListenerLaser.runCallbacks (init : ListenerLaser.State) (ms : List LaserScan) :
    ListenerLaser.State :=
  ms.foldl ListenerLaser.callback init

/-- State of a `ListenerPose3d` instance: the single cached `Pose3d` slot. -/
abbrev ListenerPose3d.State := Pose3d

/-- `ListenerPose3d.__init__` (lines 373-386): `self.data = Pose3d()`. -/
def ListenerPose3d.initState : ListenerPose3d.State :=
  Pose3d.default

/-- `ListenerPose3d.__callback` (lines 388-401): stores
`odometry2Pose3D odom`, overwriting the previous value. -/
noncomputable def ListenerPose3d.callback (_s : ListenerPose3d.State) (odom : Odometry) :
    ListenerPose3d.State :=
  odometry2Pose3D odom

/-- `ListenerPose3d.getPose3d` (lines 417-428): returns the cached value. -/
def ListenerPose3d.getPose3d (s : ListenerPose3d.State) : Pose3d :=
  s

/-- State after a sequence of received `Odometry` messages. -/
noncomputable def ListenerPose3d.runCallbacks (init : ListenerPose3d.State)
    (ms : List Odometry) : ListenerPose3d.State :=
  ms.foldl ListenerPose3d.callback init

/-- Claim C1. The claim reads: after `sendW w` followed by `publish`, the
published `Twist` has `angular.z = w`. In the code `sendW` delegates to
`sendAZ`, whose body assigns `self.data.vz` (the linear z slot), so on a
freshly constructed publisher `sendW 1` followed by `publish` yields a `Twist`
with `angular.z = 0` and `linear.z = 1`: the W command lands in the linear,
not the angular, component. -/
theorem sendW_sets_linear_z_not_angular_z :
    (PublisherMotors.publish (PublisherMotors.sendW PublisherMotors.initState 1)).angular.z
        = 0 ∧
    (PublisherMotors.publish (PublisherMotors.sendW PublisherMotors.initState 1)).linear.z
        = 1 :=
  ⟨rfl, rfl⟩

/-- Claim C2 counterexample. At the quaternion `(qw, qx, qy, qz) = (0, 0, 0, 1)`
the claimed closed form `atan2 (2*(qx*qy + qw*qz)) (qw^2 + qx^2 - qy^2 - qz^2)`
equals `atan2 0 (-1) = pi`, but `quat2Yaw` returns `0` because its guard
requires both `atan2` arguments to be nonzero. -/
theorem quat2Yaw_closed_form_fails_at_z_unit :
    quat2Yaw 0 0 0 1 ≠
      atan2 (2 * ((0 : ℝ) * 0 + 0 * 1)) ((0 : ℝ) ^ 2 + 0 ^ 2 - 0 ^ 2 - 1 ^ 2) := by
  have h1 : quat2Yaw 0 0 0 1 = 0 := by
    simp [quat2Yaw]
  have h2 : atan2 (2 * ((0 : ℝ) * 0 + 0 * 1)) ((0 : ℝ) ^ 2 + 0 ^ 2 - 0 ^ 2 - 1 ^ 2) = π := by
    have hx : ((0 : ℝ) ^ 2 + 0 ^ 2 - 0 ^ 2 - 1 ^ 2) = -1 := by norm_num
    have hy : (2 * ((0 : ℝ) * 0 + 0 * 1)) = 0 := by norm_num
    rw [hx, hy]
    simp [atan2, Real.arctan_zero]
  rw [h1, h2]
  exact Real.pi_ne_zero.symm

/-- Claim C2 amended: `quat2Yaw` returns
`atan2 (2*(qx*qy + qw*qz)) (qw^2 + qx^2 - qy^2 - qz^2)` when both arguments
are nonzero and `0` otherwise, and `quat2Roll` returns
`atan2 (2*(qy*qz + qw*qx)) (qw^2 - qx^2 - qy^2 + qz^2)` when both arguments
are nonzero and `0` otherwise. -/
theorem quat2YawRoll_guarded_closed_form (qw qx qy qz : ℝ) :
    quat2Yaw qw qx qy qz =
      (if 2 * (qx * qy + qw * qz) ≠ 0 ∧ qw ^ 2 + qx ^ 2 - qy ^ 2 - qz ^ 2 ≠ 0 then
        atan2 (2 * (qx * qy + qw * qz)) (qw ^ 2 + qx ^ 2 - qy ^ 2 - qz ^ 2)
      else 0) ∧
    quat2Roll qw qx qy qz =
      (if 2 * (qy * qz + qw * qx) ≠ 0 ∧ qw ^ 2 - qx ^ 2 - qy ^ 2 + qz ^ 2 ≠ 0 then
        atan2 (2 * (qy * qz + qw * qx)) (qw ^ 2 - qx ^ 2 - qy ^ 2 + qz ^ 2)
      else 0) := by
  have h1 : qw ^ 2 + qx ^ 2 - qy ^ 2 - qz ^ 2 = qw * qw + qx * qx - qy * qy - qz * qz := by
    ring
  have h2 : qw ^ 2 - qx ^ 2 - qy ^ 2 + qz ^ 2 = qw * qw - qx * qx - qy * qy + qz * qz := by
    ring
  rw [h1, h2]
  exact ⟨rfl, rfl⟩

/-- Claim C3: whenever the quantity `-2*(qx*qz - qw*qy)` lies in `[-1, 1]`,
`quat2Pitch` returns its `arcsin`; above `1` it returns `pi/2`; below `-1` it
returns `-pi/2`. (At the boundaries the constant branches agree with `arcsin`,
since `arcsin 1 = pi/2` and `arcsin (-1) = -pi/2`.) -/
theorem quat2Pitch_branches (qw qx qy qz : ℝ) :
    (-1 ≤ -2 * (qx * qz - qw * qy) → -2 * (qx * qz - qw * qy) ≤ 1 →
      quat2Pitch qw qx qy qz = arcsin (-2 * (qx * qz - qw * qy))) ∧
    (1 < -2 * (qx * qz - qw * qy) → quat2Pitch qw qx qy qz = π / 2) ∧
    (-2 * (qx * qz - qw * qy) < -1 → quat2Pitch qw qx qy qz = -(π / 2)) := by
  simp only [quat2Pitch]
  refine ⟨?_, ?_, ?_⟩
  · intro hlo hhi
    split_ifs with hge hle
    · have heq : -2 * (qx * qz - qw * qy) = 1 := le_antisymm hhi hge
      rw [heq, Real.arcsin_one]
    · have heq : -2 * (qx * qz - qw * qy) = -1 := le_antisymm hle hlo
      rw [heq, Real.arcsin_neg_one]
    · rfl
  · intro hgt
    split_ifs with hge hle
    · rfl
    · exact absurd (le_of_lt hgt) hge
    · exact absurd (le_of_lt hgt) hge
  · intro hlt
    split_ifs with hge hle
    · exact absurd hge (by linarith)
    · rfl
    · exact absurd (le_of_lt hlt) hle

/-- Witness for C3 at the identity quaternion `(1, 0, 0, 0)`: the `arcsin`
argument is `0`, inside `[-1, 1]`. -/
theorem quat2Pitch_branches_witness :
    quat2Pitch 1 0 0 0 = arcsin (-2 * ((0 : ℝ) * 0 - 1 * 0)) :=
  (quat2Pitch_branches 1 0 0 0).1 (by norm_num) (by norm_num)

/-- Claim C4: `laserScan2LaserData` copies the ranges unchanged, shifts both
angle bounds by `+pi/2`, copies the range bounds, and sets the time stamp to
`secs + nsecs * 1e-9`. -/
theorem laserScan2LaserData_fields (scan : LaserScan) :
    (laserScan2LaserData scan).values = scan.ranges ∧
    (laserScan2LaserData scan).minAngle = scan.angle_min + π / 2 ∧
    (laserScan2LaserData scan).maxAngle = scan.angle_max + π / 2 ∧
    (laserScan2LaserData scan).minRange = scan.range_min ∧
    (laserScan2LaserData scan).maxRange = scan.range_max ∧
    (laserScan2LaserData scan).timeStamp =
      (scan.header.stamp.secs : ℝ) + (scan.header.stamp.nsecs : ℝ) * 1e-9 :=
  ⟨rfl, rfl, rfl, rfl, rfl, rfl⟩

/-- Claim C5: `odometry2Pose3D` copies the position, computes the Euler angles
with `quat2Yaw`, `quat2Pitch`, `quat2Roll` from the orientation quaternion,
stores the quaternion as the list `[w, x, y, z]`, and sets the time stamp to
`secs + nsecs * 1e-9`. -/
theorem odometry2Pose3D_fields (odom : Odometry) :
    (odometry2Pose3D odom).x = odom.pose.pose.position.x ∧
    (odometry2Pose3D odom).y = odom.pose.pose.position.y ∧
    (odometry2Pose3D odom).z = odom.pose.pose.position.z ∧
    (odometry2Pose3D odom).yaw =
      quat2Yaw odom.pose.pose.orientation.w odom.pose.pose.orientation.x
        odom.pose.pose.orientation.y odom.pose.pose.orientation.z ∧
    (odometry2Pose3D odom).pitch =
      quat2Pitch odom.pose.pose.orientation.w odom.pose.pose.orientation.x
        odom.pose.pose.orientation.y odom.pose.pose.orientation.z ∧
    (odometry2Pose3D odom).roll =
      quat2Roll odom.pose.pose.orientation.w odom.pose.pose.orientation.x
        odom.pose.pose.orientation.y odom.pose.pose.orientation.z ∧
    (odometry2Pose3D odom).q =
      [odom.pose.pose.orientation.w, odom.pose.pose.orientation.x,
        odom.pose.pose.orientation.y, odom.pose.pose.orientation.z] ∧
    (odometry2Pose3D odom).timeStamp =
      (odom.header.stamp.secs : ℝ) + (odom.header.stamp.nsecs : ℝ) * 1e-9 :=
  ⟨rfl, rfl, rfl, rfl, rfl, rfl, rfl, rfl⟩

/-- Claim C6: `cmdvel2Twist` is a field-for-field copy of the linear and
angular velocity components of a `CMDVel` into a `Twist`. -/
theorem cmdvel2Twist_fields (vel : CMDVel) :
    (cmdvel2Twist vel).linear.x = vel.vx ∧
    (cmdvel2Twist vel).linear.y = vel.vy ∧
    (cmdvel2Twist vel).linear.z = vel.vz ∧
    (cmdvel2Twist vel).angular.x = vel.ax ∧
    (cmdvel2Twist vel).angular.y = vel.ay ∧
    (cmdvel2Twist vel).angular.z = vel.az :=
  ⟨rfl, rfl, rfl, rfl, rfl, rfl⟩

/-- Claim C7: `PublisherMotors` is a single-slot most-recent-value cache. After
any sequence of `sendVelocities` calls ending in `sendVelocities v`, a
`publish` publishes exactly `cmdvel2Twist v`, each call having overwritten the
previous cached value entirely. -/
theorem sendVelocities_last_value_published (init : PublisherMotors.State)
    (vs : List CMDVel) (v : CMDVel) :
    PublisherMotors.publish (PublisherMotors.runSendVelocities init (vs ++ [v])) =
      cmdvel2Twist v := by
  simp [PublisherMotors.runSendVelocities, PublisherMotors.publish,
    PublisherMotors.sendVelocities, List.foldl_append]

/-- Claim C8: `ListenerLaser` and `ListenerPose3d` are single-slot
most-recent-value caches: after any sequence of received messages ending in
`m` (resp. `o`), the getter returns `laserScan2LaserData m` (resp.
`odometry2Pose3D o`), each callback having overwritten the stored value. -/
theorem listeners_return_last_message (ls : ListenerLaser.State)
    (ms : List LaserScan) (m : LaserScan) (ps : ListenerPose3d.State)
    (os : List Odometry) (o : Odometry) :
    ListenerLaser.getLaserData (ListenerLaser.runCallbacks ls (ms ++ [m])) =
      laserScan2LaserData m ∧
    ListenerPose3d.getPose3d (ListenerPose3d.runCallbacks ps (os ++ [o])) =
      odometry2Pose3D o := by
  constructor
  · simp [ListenerLaser.runCallbacks, ListenerLaser.getLaserData,
      ListenerLaser.callback, List.foldl_append]
  · simp [ListenerPose3d.runCallbacks, ListenerPose3d.getPose3d,
      ListenerPose3d.callback, List.foldl_append]

/-- Claim C9: before any message has been received (an empty callback
sequence), `getLaserData` returns the default-constructed `LaserData` stored
by the constructor and `getPose3d` returns the default-constructed `Pose3d`;
both getters are total and return a value, not an absent marker. -/
theorem getters_return_defaults_before_any_message :
    ListenerLaser.getLaserData (ListenerLaser.runCallbacks ListenerLaser.initState []) =
      LaserData.default ∧
    ListenerPose3d.getPose3d (ListenerPose3d.runCallbacks ListenerPose3d.initState []) =
      Pose3d.default :=
  ⟨rfl, rfl⟩

/-- Claim C10: `quat2Pitch` is total and safe: its result always lies in
`[-pi/2, pi/2]`, and on every input either the `arcsin` argument
`-2*(qx*qz - qw*qy)` is strictly inside `(-1, 1)` (so `arcsin` is applied
within its domain) or the result is one of the constant branches `pi/2`,
`-pi/2` and `arcsin` is never reached. -/
theorem quat2Pitch_total_and_bounded (qw qx qy qz : ℝ) :
    quat2Pitch qw qx qy qz ∈ Set.Icc (-(π / 2)) (π / 2) ∧
    ((-1 < -2 * (qx * qz - qw * qy) ∧ -2 * (qx * qz - qw * qy) < 1) ∨
      quat2Pitch qw qx qy qz = π / 2 ∨ quat2Pitch qw qx qy qz = -(π / 2)) := by
  have hpi := Real.pi_pos
  constructor
  · simp only [quat2Pitch]
    split_ifs with hge hle
    · exact Set.mem_Icc.mpr ⟨by linarith, le_refl _⟩
    · exact Set.mem_Icc.mpr ⟨le_refl _, by linarith⟩
    · exact Real.arcsin_mem_Icc _
  · simp only [quat2Pitch]
    split_ifs with hge hle
    · exact Or.inr (Or.inl rfl)
    · exact Or.inr (Or.inr rfl)
    · exact Or.inl ⟨by linarith [not_le.mp hle], by linarith [not_le.mp hge]⟩
